import Mathlib

/-
Verification of the media-transport core of sip.go: NAT traversal with
STUN-to-TURN fallback, the STUN keepalive task, SDP answer generation,
the RTP send and receive loops, and the G.711 (PCMU) and Opus codec
wrappers.

External effects (UDP sockets, the STUN/TURN/Opus libraries, audio
capture and playback) are modelled as environment inputs: each loop
iteration receives the outcome the external collaborator would have
produced, and the embedding reproduces the control flow of the Go code
on those outcomes.
-/

namespace NetPrg

/-- Outcome of performSTUNWithKeepalive or performTURN as seen by the
caller: on success a pair of IP string and port. -/
abbrev AddrResult := Except String (String × Nat)

/-- Model of performNATTraversal (sip.go lines 104-118). The STUN step
runs first; on its success the public address is returned with an empty
relay address. On STUN failure the error is only logged and the TURN
step runs; a TURN failure yields an error built from the TURN cause
alone, and a TURN success yields the relay address with an empty public
address. -/
def performNATTraversal (stunResult : AddrResult) (turnResult : AddrResult) :
    Except String (String × Nat × String × Nat) :=
  match stunResult with
  | Except.ok (ip, port) => Except.ok (ip, port, "", 0)
  | Except.error _ =>
      match turnResult with
      | Except.ok (rip, rport) => Except.ok ("", 0, rip, rport)
      | Except.error e => Except.error ("TURN fallback failed: " ++ e)

/-- Ticker period of the STUN keepalive goroutine (sip.go line 159), in
seconds. -/
def keepaliveTickSeconds : Nat := 30

/-- Intended stop deadline of the STUN keepalive goroutine (sip.go line
168), in seconds. -/
def keepaliveStopSeconds : Nat := 120

/-- Model of the keepalive goroutine of performSTUNWithKeepalive
(sip.go lines 158-172). The select loop races the 30-second ticker
against a time.After channel; the time.After call is evaluated anew on
every loop iteration, so its deadline restarts from the current instant
each time the loop comes back around. Given fuel and the current time
in seconds since the task started, this returns the absolute times at
which a keepalive binding request is sent: each iteration the next tick
(30 seconds away) races a fresh 120-second timer, and the earlier one
wins. -/
def stunKeepaliveSends : Nat → Nat → List Nat
  | 0, _ => []
  | fuel + 1, now =>
      if now + keepaliveTickSeconds < now + keepaliveStopSeconds then
        (now + keepaliveTickSeconds) ::
          stunKeepaliveSends fuel (now + keepaliveTickSeconds)
      else
        []

/-- Model of generateSDPAnswer (sip.go lines 213-234): renders the SDP
answer text from the discovered addresses, using the relay address when
it is nonempty and the public address otherwise. -/
def generateSDPAnswer (publicIP : String) (publicPort : Nat)
    (relayIP : String) (relayPort : Nat) : String :=
  if relayIP ≠ "" then
    "v=0\r\n" ++
    "o=- 0 0 IN IP4 " ++ relayIP ++ "\r\n" ++
    "s=-\r\n" ++
    "c=IN IP4 " ++ relayIP ++ "\r\n" ++
    "t=0 0\r\n" ++
    "m=audio " ++ toString relayPort ++ " RTP/AVP 0 96\r\n" ++
    "a=rtpmap:96 opus/8000/1\r\n"
  else
    "v=0\r\n" ++
    "o=- 0 0 IN IP4 " ++ publicIP ++ "\r\n" ++
    "s=-\r\n" ++
    "c=IN IP4 " ++ publicIP ++ "\r\n" ++
    "t=0 0\r\n" ++
    "m=audio " ++ toString publicPort ++ " RTP/AVP 0 96\r\n" ++
    "a=rtpmap:96 opus/8000/1\r\n"

/-- Decomposition of an SDP text into its CRLF-separated lines, over
the character list. -/
def crlfSplit : List Char → List (List Char)
  | [] => [[]]
  | '\r' :: '\n' :: rest => [] :: crlfSplit rest
  | c :: rest =>
      match crlfSplit rest with
      | [] => [[c]]
      | l :: ls => (c :: l) :: ls

/-- Lines of an SDP text, split on CRLF. -/
def sdpLines (s : String) : List String :=
  (crlfSplit s.data).map String.mk

/-- Modelled from the spec: the per-sample G.711 mu-law clip threshold.
The pion g711 library sources are not part of this repository; the
transform is the standard ITU G.711 mu-law companding the spec names
(per-sample, stateless, table-free arithmetic). -/
def muLawClip : Nat := 32635

/-- Modelled from the spec: the G.711 mu-law bias (0x84). -/
def muLawBias : Nat := 132

/-- Modelled from the spec: the mu-law segment exponent of a biased
magnitude, 0 through 7. -/
def muLawExponent (m : Nat) : Nat :=
  if 16384 ≤ m then 7
  else if 8192 ≤ m then 6
  else if 4096 ≤ m then 5
  else if 2048 ≤ m then 4
  else if 1024 ≤ m then 3
  else if 512 ≤ m then 2
  else if 256 ≤ m then 1
  else 0

/-- Modelled from the spec: g711.EncodePCMU, the standard G.711 mu-law
encoder mapping one 16-bit sample to one 8-bit code: take the sign,
clip the magnitude, add the bias, select the segment, extract a 4-bit
mantissa, and complement the assembled byte. -/
def encodePCMU (sample : Int) : Nat :=
  let sign : Nat := if sample < 0 then 128 else 0
  let magnitude : Nat := min sample.natAbs muLawClip
  let biased : Nat := magnitude + muLawBias
  let e : Nat := muLawExponent biased
  let mantissa : Nat := (biased / 2 ^ (e + 3)) % 16
  255 - (sign + e * 16 + mantissa)

/-- Modelled from the spec: g711.DecodePCMU, the standard G.711 mu-law
decoder mapping one 8-bit code back to a 16-bit sample. -/
def decodePCMU (code : Nat) : Int :=
  let u : Nat := 255 - code % 256
  let sign : Nat := u / 128
  let e : Nat := (u / 16) % 8
  let mantissa : Nat := u % 16
  let t : Nat := (mantissa * 8 + muLawBias) * 2 ^ e
  let v : Int := (t : Int) - (muLawBias : Int)
  if sign = 1 then -v else v

/-- Model of encodeG711 (sip.go lines 441-447): encodes each sample
independently; the Go function always returns a nil error. -/
def encodeG711 (audioData : List Int) : Except String (List Nat) :=
  Except.ok (audioData.map encodePCMU)

/-- Model of decodeG711 (sip.go lines 450-456): decodes each byte
independently; the Go function always returns a nil error. -/
def decodeG711 (encodedData : List Nat) : Except String (List Int) :=
  Except.ok (encodedData.map decodePCMU)

/-- Lifecycle events of the stateful Opus handles: creation and
destruction of the encoder (send direction) and decoder (receive
direction). -/
inductive OpusHandleEvent where
  | createEncoder
  | destroyEncoder
  | createDecoder
  | destroyDecoder
  deriving DecidableEq, Repr

/-- Model of encodeOpus (sip.go lines 371-385). Every call constructs a
fresh encoder with opus.NewEncoder and defers its destruction, so on
every call in which creation succeeds the handle trace is one creation
followed by one destruction, whether or not the encode step fails. The
creation outcome and the encode outcome are environment inputs. -/
def encodeOpus (createOk : Bool) (encodeResult : Except String (List Nat)) :
    Except String (List Nat) × List OpusHandleEvent :=
  if createOk then
    match encodeResult with
    | Except.ok bs =>
        (Except.ok bs,
         [OpusHandleEvent.createEncoder, OpusHandleEvent.destroyEncoder])
    | Except.error e =>
        (Except.error ("failed to encode Opus audio: " ++ e),
         [OpusHandleEvent.createEncoder, OpusHandleEvent.destroyEncoder])
  else
    (Except.error "failed to create Opus encoder", [])

/-- Model of decodeOpus (sip.go lines 388-402), symmetric to
encodeOpus: a fresh decoder per call, destroyed on every exit path. -/
def decodeOpus (createOk : Bool) (decodeResult : Except String (List Int)) :
    Except String (List Int) × List OpusHandleEvent :=
  if createOk then
    match decodeResult with
    | Except.ok samples =>
        (Except.ok samples,
         [OpusHandleEvent.createDecoder, OpusHandleEvent.destroyDecoder])
    | Except.error e =>
        (Except.error ("failed to decode Opus audio: " ++ e),
         [OpusHandleEvent.createDecoder, OpusHandleEvent.destroyDecoder])
  else
    (Except.error "failed to create Opus decoder", [])

/-- Model of pion rtp.Packet as constructed and consumed by
handleRTPCommunication, with the header fields inlined: version,
payload type, sequence number, timestamp, SSRC, and the payload
bytes. -/
structure RtpPacket where
  version : Nat
  payloadType : Nat
  sequenceNumber : Nat
  timestamp : Nat
  ssrc : Nat
  payload : List Nat
  deriving DecidableEq, Repr

/-- Environment of one iteration of the send loop: the outcome of the
audio capture read, the captured samples, the outcomes the Opus library
would produce if invoked, and the outcomes of marshalling and of the
socket write. -/
structure SendFrameEnv where
  captureOk : Bool
  samples : List Int
  opusCreateOk : Bool
  opusEncodeResult : Except String (List Nat)
  marshalOk : Bool
  writeOk : Bool
  deriving Repr

/-- Codec dispatch of one send-loop iteration (the switch at sip.go
lines 322-332): on PCMU the G.711 encoder runs (never failing), on Opus
the Opus encoder runs, and in the default arm the break statement only
leaves the switch, not the for loop, so the iteration proceeds with an
empty payload and payload type 0 and no error. Returns the payload and
payload type when the iteration proceeds to sending, none when the loop
breaks, together with the Opus handle events of the iteration. -/
def encodeFrame (codec : String) (env : SendFrameEnv) :
    Option (List Nat × Nat) × List OpusHandleEvent :=
  if codec = "PCMU" then
    match encodeG711 env.samples with
    | Except.ok bs => (some (bs, 0), [])
    | Except.error _ => (none, [])
  else if codec = "Opus" then
    match encodeOpus env.opusCreateOk env.opusEncodeResult with
    | (Except.ok bs, evs) => (some (bs, 96), evs)
    | (Except.error _, evs) => (none, evs)
  else
    (some ([], 0), [])

/-- Model of the send loop of handleRTPCommunication (sip.go lines
309-367). It starts with sequence number 0 and timestamp 0; each
iteration reads a capture frame (a failure breaks the loop), dispatches
on the negotiated codec, constructs an RTP packet with version 2 and
SSRC 1234, marshals and writes it (a failure of either breaks the
loop), then increments the sequence number by 1 modulo 2 to the 16 and
the timestamp by 160 modulo 2 to the 32. Returns the packets actually
emitted and the Opus handle events, given the per-iteration
environments. -/
def sendLoop (codec : String) :
    List SendFrameEnv → Nat → Nat → List RtpPacket × List OpusHandleEvent
  | [], _, _ => ([], [])
  | env :: rest, seq, ts =>
      if env.captureOk then
        match encodeFrame codec env with
        | (none, evs) => ([], evs)
        | (some (payloadBytes, pt), evs) =>
            if env.marshalOk then
              if env.writeOk then
                let packet : RtpPacket :=
                  { version := 2
                    payloadType := pt
                    sequenceNumber := seq % 65536
                    timestamp := ts % 4294967296
                    ssrc := 1234
                    payload := payloadBytes }
                let next := sendLoop codec rest (seq + 1) (ts + 160)
                (packet :: next.1, evs ++ next.2)
              else ([], evs)
            else ([], evs)
      else ([], [])

/-- Environment of one iteration of the receive loop: the outcome of
the socket read, the result of parsing the datagram as an RTP packet
(none on parse failure), and the outcomes the Opus library would
produce if invoked. A playback write failure is only logged by the Go
code and does not affect control flow. -/
structure RecvDatagramEnv where
  readOk : Bool
  parsed : Option RtpPacket
  opusCreateOk : Bool
  opusDecodeResult : Except String (List Int)
  deriving Repr

/-- Per-datagram handling of the receive loop (sip.go lines 277-304):
the decoded samples handed to the playback sink, or none when the
datagram is dropped because parsing failed, the payload type is neither
0 nor 96, or decoding failed. -/
def handleDatagram (env : RecvDatagramEnv) : Option (List Int) :=
  match env.parsed with
  | none => none
  | some p =>
      if p.payloadType = 0 then
        match decodeG711 p.payload with
        | Except.ok d => some d
        | Except.error _ => none
      else if p.payloadType = 96 then
        match decodeOpus env.opusCreateOk env.opusDecodeResult with
        | (Except.ok d, _) => some d
        | (Except.error _, _) => none
      else none

/-- Model of the receive goroutine of handleRTPCommunication (sip.go
lines 268-306). A read failure breaks the loop; a parse failure, an
unregistered payload type, or a decode failure drops the datagram with
continue; a successful datagram hands its decoded samples to the
playback sink. Returns the sample buffers handed to the sink. -/
def recvLoop : List RecvDatagramEnv → List (List Int)
  | [] => []
  | env :: rest =>
      if env.readOk then
        match env.parsed with
        | none => recvLoop rest
        | some p =>
            if p.payloadType = 0 then
              match decodeG711 p.payload with
              | Except.ok d => d :: recvLoop rest
              | Except.error _ => recvLoop rest
            else if p.payloadType = 96 then
              match decodeOpus env.opusCreateOk env.opusDecodeResult with
              | (Except.ok d, _) => d :: recvLoop rest
              | (Except.error _, _) => recvLoop rest
            else recvLoop rest
      else []

/-- Boolean test that the first list leads the second list (is an
initial run of it), written out directly over characters. -/
def leadsList : List Char → List Char → Bool
  | [], _ => true
  | _ :: _, [] => false
  | a :: as, b :: bs => a == b && leadsList as bs

/-- Boolean test that the first list occurs contiguously somewhere
inside the second list. -/
def occursIn (needle : List Char) : List Char → Bool
  | [] => needle.isEmpty
  | c :: rest => leadsList needle (c :: rest) || occursIn needle rest

/-- A cause string is carried by an error message when its character
sequence occurs contiguously in the message. -/
def carriesCause (message cause : String) : Prop :=
  occursIn cause.data message.data = true

instance (message cause : String) : Decidable (carriesCause message cause) := by
  unfold carriesCause
  infer_instance

end NetPrg

namespace NetPrg

theorem leadsList_self (l : List Char) : leadsList l l = true := by
  induction l with
  | nil => rfl
  | cons a as ih => simp [leadsList, ih]

theorem occursIn_append (pre l : List Char) : occursIn l (pre ++ l) = true := by
  induction pre with
  | nil =>
      cases l with
      | nil => rfl
      | cons c cs => simp [occursIn, leadsList_self]
  | cons p ps ih => simp [occursIn, ih]

theorem muLawExponent_le (m : Nat) : muLawExponent m ≤ 7 := by
  unfold muLawExponent
  repeat' split
  all_goals omega

theorem muLaw_value_bound (m : Nat) (hm : m ≤ 32635) :
    m ≤ (((m + 132) / 2 ^ (muLawExponent (m + 132) + 3)) % 16 * 8 + 132)
          * 2 ^ muLawExponent (m + 132) - 132 + 512
    ∧ (((m + 132) / 2 ^ (muLawExponent (m + 132) + 3)) % 16 * 8 + 132)
          * 2 ^ muLawExponent (m + 132) - 132 ≤ m + 512
    ∧ 132 ≤ (((m + 132) / 2 ^ (muLawExponent (m + 132) + 3)) % 16 * 8 + 132)
          * 2 ^ muLawExponent (m + 132) := by
  by_cases c7 : 16384 ≤ m + 132
  · have hE : muLawExponent (m + 132) = 7 := by simp [muLawExponent, c7]
    rw [hE]
    norm_num
    omega
  · by_cases c6 : 8192 ≤ m + 132
    · have hE : muLawExponent (m + 132) = 6 := by simp [muLawExponent, c7, c6]
      rw [hE]
      norm_num
      omega
    · by_cases c5 : 4096 ≤ m + 132
      · have hE : muLawExponent (m + 132) = 5 := by simp [muLawExponent, c7, c6, c5]
        rw [hE]
        norm_num
        omega
      · by_cases c4 : 2048 ≤ m + 132
        · have hE : muLawExponent (m + 132) = 4 := by simp [muLawExponent, c7, c6, c5, c4]
          rw [hE]
          norm_num
          omega
        · by_cases c3 : 1024 ≤ m + 132
          · have hE : muLawExponent (m + 132) = 3 := by
              simp [muLawExponent, c7, c6, c5, c4, c3]
            rw [hE]
            norm_num
            omega
          · by_cases c2 : 512 ≤ m + 132
            · have hE : muLawExponent (m + 132) = 2 := by
                simp [muLawExponent, c7, c6, c5, c4, c3, c2]
              rw [hE]
              norm_num
              omega
            · by_cases c1 : 256 ≤ m + 132
              · have hE : muLawExponent (m + 132) = 1 := by
                  simp [muLawExponent, c7, c6, c5, c4, c3, c2, c1]
                rw [hE]
                norm_num
                omega
              · have hE : muLawExponent (m + 132) = 0 := by
                  simp [muLawExponent, c7, c6, c5, c4, c3, c2, c1]
                rw [hE]
                norm_num
                omega

theorem muLaw_roundtrip_nonneg (m : Nat) (hm : m ≤ 32635) :
    (decodePCMU (encodePCMU (m : Int)) - (m : Int)).natAbs ≤ 512 := by
  have hE := muLawExponent_le (m + 132)
  have hvb := muLaw_value_bound m hm
  have hmin : min (Int.natAbs (m : Int)) 32635 = m := by omega
  simp only [encodePCMU, decodePCMU, muLawBias, muLawClip]
  rw [if_neg (show ¬ ((m : Int) < 0) by omega), hmin]
  have hu : 255 - (255 - (0 + muLawExponent (m + 132) * 16
      + ((m + 132) / 2 ^ (muLawExponent (m + 132) + 3)) % 16)) % 256
      = muLawExponent (m + 132) * 16
        + ((m + 132) / 2 ^ (muLawExponent (m + 132) + 3)) % 16 := by
    omega
  rw [hu]
  rw [if_neg (show ¬ ((muLawExponent (m + 132) * 16
      + ((m + 132) / 2 ^ (muLawExponent (m + 132) + 3)) % 16) / 128 = 1) by omega)]
  have hm16 : (muLawExponent (m + 132) * 16
      + ((m + 132) / 2 ^ (muLawExponent (m + 132) + 3)) % 16) % 16
      = ((m + 132) / 2 ^ (muLawExponent (m + 132) + 3)) % 16 := by omega
  have he16 : (muLawExponent (m + 132) * 16
      + ((m + 132) / 2 ^ (muLawExponent (m + 132) + 3)) % 16) / 16 % 8
      = muLawExponent (m + 132) := by omega
  rw [hm16, he16]
  omega

theorem muLaw_roundtrip_neg (m : Nat) (hm1 : 1 ≤ m) (hm : m ≤ 32635) :
    (decodePCMU (encodePCMU (-(m : Int))) - (-(m : Int))).natAbs ≤ 512 := by
  have hE := muLawExponent_le (m + 132)
  have hvb := muLaw_value_bound m hm
  have hmin : min (Int.natAbs (-(m : Int))) 32635 = m := by omega
  simp only [encodePCMU, decodePCMU, muLawBias, muLawClip]
  rw [if_pos (show (-(m : Int)) < 0 by omega), hmin]
  have hu : 255 - (255 - (128 + muLawExponent (m + 132) * 16
      + ((m + 132) / 2 ^ (muLawExponent (m + 132) + 3)) % 16)) % 256
      = 128 + muLawExponent (m + 132) * 16
        + ((m + 132) / 2 ^ (muLawExponent (m + 132) + 3)) % 16 := by
    omega
  rw [hu]
  rw [if_pos (show (128 + muLawExponent (m + 132) * 16
      + ((m + 132) / 2 ^ (muLawExponent (m + 132) + 3)) % 16) / 128 = 1 by omega)]
  have hm16 : (128 + muLawExponent (m + 132) * 16
      + ((m + 132) / 2 ^ (muLawExponent (m + 132) + 3)) % 16) % 16
      = ((m + 132) / 2 ^ (muLawExponent (m + 132) + 3)) % 16 := by omega
  have he16 : (128 + muLawExponent (m + 132) * 16
      + ((m + 132) / 2 ^ (muLawExponent (m + 132) + 3)) % 16) / 16 % 8
      = muLawExponent (m + 132) := by omega
  rw [hm16, he16]
  omega

theorem muLaw_roundtrip (s : Int) (h1 : -32768 ≤ s) (h2 : s ≤ 32767) :
    (decodePCMU (encodePCMU s) - s).natAbs ≤ 644 := by
  rcases le_or_lt 0 s with hpos | hneg
  · rcases le_or_lt s 32635 with hlo | hhi
    · have hb := muLaw_roundtrip_nonneg s.toNat (by omega)
      have hs : ((s.toNat : Nat) : Int) = s := by omega
      rw [hs] at hb
      omega
    · have henc : encodePCMU s = 128 := by
        simp only [encodePCMU, muLawBias, muLawClip]
        rw [if_neg (show ¬ (s < 0) by omega),
          (show min s.natAbs 32635 = 32635 by omega)]
        decide
      have hdec : decodePCMU 128 = 32124 := by decide
      rw [henc, hdec]
      omega
  · rcases le_or_lt (-32635) s with hlo | hhi
    · have hb := muLaw_roundtrip_neg (-s).toNat (by omega) (by omega)
      have hs : (-(((-s).toNat : Nat) : Int)) = s := by omega
      rw [hs] at hb
      omega
    · have henc : encodePCMU s = 0 := by
        simp only [encodePCMU, muLawBias, muLawClip]
        rw [if_pos (show s < 0 by omega),
          (show min s.natAbs 32635 = 32635 by omega)]
        decide
      have hdec : decodePCMU 0 = -32124 := by decide
      rw [henc, hdec]
      omega

theorem sendLoop_get_fields (codec : String) :
    ∀ (envs : List SendFrameEnv) (s t i : Nat)
      (h : i < ((sendLoop codec envs s t).1).length),
      (((sendLoop codec envs s t).1).get ⟨i, h⟩).sequenceNumber = (s + i) % 65536
      ∧ (((sendLoop codec envs s t).1).get ⟨i, h⟩).timestamp = (t + 160 * i) % 4294967296
      ∧ (((sendLoop codec envs s t).1).get ⟨i, h⟩).version = 2
      ∧ (((sendLoop codec envs s t).1).get ⟨i, h⟩).ssrc = 1234 := by
  intro envs
  induction envs with
  | nil => intro s t i h; simp [sendLoop] at h
  | cons env rest ih =>
      intro s t i h
      by_cases hc : env.captureOk
      · rcases hef : encodeFrame codec env with ⟨o, evs⟩
        cases o with
        | none =>
            exfalso
            simp [sendLoop, hc, hef] at h
        | some pp =>
            rcases pp with ⟨pb, pt⟩
            by_cases hm : env.marshalOk
            · by_cases hw : env.writeOk
              · cases i with
                | zero => simp [sendLoop, hc, hef, hm, hw]
                | succ j =>
                    have hlen : j < ((sendLoop codec rest (s + 1) (t + 160)).1).length := by
                      simp [sendLoop, hc, hef, hm, hw] at h
                      omega
                    have hrec := ih (s + 1) (t + 160) j hlen
                    have hget :
                        ((sendLoop codec (env :: rest) s t).1).get ⟨j + 1, h⟩
                          = ((sendLoop codec rest (s + 1) (t + 160)).1).get ⟨j, hlen⟩ := by
                      simp [sendLoop, hc, hef, hm, hw]
                    rw [hget]
                    refine ⟨?_, ?_, hrec.2.2.1, hrec.2.2.2⟩
                    · rw [hrec.1]; congr 1; omega
                    · rw [hrec.2.1]; congr 1; omega
              · exfalso; simp [sendLoop, hc, hef, hm, hw] at h
            · exfalso; simp [sendLoop, hc, hef, hm] at h
      · exfalso; simp [sendLoop, hc] at h

theorem recvLoop_eq (envs : List RecvDatagramEnv) :
    recvLoop envs = (envs.takeWhile fun e => e.readOk).filterMap handleDatagram := by
  induction envs with
  | nil => rfl
  | cons env rest ih =>
      by_cases hr : env.readOk
      · cases hp : env.parsed with
        | none => simp [recvLoop, handleDatagram, hr, hp, ih]
        | some p =>
            by_cases h0 : p.payloadType = 0
            · simp [recvLoop, handleDatagram, hr, hp, h0, decodeG711, ih]
            · by_cases h96 : p.payloadType = 96
              · rcases hd : decodeOpus env.opusCreateOk env.opusDecodeResult with ⟨r, tr⟩
                cases r with
                | ok d => simp [recvLoop, handleDatagram, hr, hp, h0, h96, hd, ih]
                | error e => simp [recvLoop, handleDatagram, hr, hp, h0, h96, hd, ih]
              · simp [recvLoop, handleDatagram, hr, hp, h0, h96, ih]
      · simp [recvLoop, hr, List.takeWhile_cons]

theorem zip_map_mem {α β : Type} (g : α → β) (l : List α) :
    ∀ pr ∈ (l.map g).zip l, ∃ s, s ∈ l ∧ pr = (g s, s) := by
  induction l with
  | nil => simp
  | cons a as ih =>
      intro pr hpr
      simp only [List.map_cons, List.zip_cons_cons, List.mem_cons] at hpr
      rcases hpr with h | h
      · exact ⟨a, List.mem_cons_self a as, h⟩
      · rcases ih pr h with ⟨s, hs, he⟩
        exact ⟨s, List.mem_cons_of_mem a hs, he⟩

end NetPrg

namespace NetPrg

/-- Claim C1, counterexample: when STUN fails with cause "stun timeout"
and TURN fails with cause "turn refused", the resolution error is
exactly "TURN fallback failed: turn refused", and the STUN failure
cause does not occur in it, so the error does not carry both underlying
failure causes. -/
theorem c1_counterexample_stun_cause_dropped :
    performNATTraversal (Except.error "stun timeout") (Except.error "turn refused")
      = Except.error "TURN fallback failed: turn refused"
    ∧ ¬ carriesCause "TURN fallback failed: turn refused" "stun timeout" :=
  ⟨rfl, by decide⟩

/-- Claim C1, amended: when both the STUN attempt and the TURN
allocation fail, resolution fails with an error whose message is the
string "TURN fallback failed: " followed by the TURN failure cause; the
error carries the TURN cause, while the STUN cause is only logged and
is not included. -/
theorem c1_both_fail_error_carries_turn_cause (stunErr turnErr : String) :
    performNATTraversal (Except.error stunErr) (Except.error turnErr)
      = Except.error ("TURN fallback failed: " ++ turnErr)
    ∧ carriesCause ("TURN fallback failed: " ++ turnErr) turnErr := by
  refine ⟨rfl, ?_⟩
  unfold carriesCause
  rw [String.data_append]
  exact occursIn_append _ _

/-- Claim C2: the keepalive task does not self-terminate two minutes
after it starts. Because the two-minute timer is recreated on every
loop iteration, it always loses the race against the 30-second tick:
within the first five iterations the task sends keepalive binding
requests at 30, 60, 90, 120 and 150 seconds, and the send at 150
seconds is strictly later than the intended 120-second stop
deadline. -/
theorem c2_keepalive_sends_beyond_two_minutes :
    stunKeepaliveSends 5 0 = [30, 60, 90, 120, 150]
    ∧ keepaliveStopSeconds < 150 := by decide

/-- Claim C3: with the unsupported negotiated codec "G722" the send
duty is not halted. The break in the default arm of the codec switch
only leaves the switch, so over two successfully captured frames the
loop emits two RTP packets, each with payload type 0 and an empty
payload, with sequence numbers 0 and 1. -/
theorem c3_unsupported_codec_send_duty_continues :
    ((sendLoop "G722"
        [⟨true, List.replicate 160 0, true, Except.ok [], true, true⟩,
         ⟨true, List.replicate 160 0, true, Except.ok [], true, true⟩] 0 0).1).map
        (fun p => (p.payloadType, p.payload, p.sequenceNumber))
      = [(0, [], 0), (0, [], 1)] := by decide

/-- Claim C4, counterexample: over one Opus call leg in which the send
duty emits two packets, the Opus encoder handle is created twice — once
per packet — so it is not created exactly once per direction for the
lifetime of the leg. -/
theorem c4_counterexample_encoder_created_per_packet :
    ((sendLoop "Opus"
        [⟨true, [1, 2], true, Except.ok [7], true, true⟩,
         ⟨true, [1, 2], true, Except.ok [7], true, true⟩] 0 0).2).count
        OpusHandleEvent.createEncoder = 2
    ∧ (2 : Nat) ≠ 1 := by decide

/-- Claim C4, amended: the stateful Opus encoder handle (send
direction) and decoder handle (receive direction) are each created
anew on every encode respectively decode call — once per packet, not
once per leg — and every successfully created handle is released
before the call returns on every exit path, including encode and
decode failure. -/
theorem c4_opus_handle_created_and_released_per_call (createOk : Bool)
    (encodeResult : Except String (List Nat))
    (decodeResult : Except String (List Int)) :
    (encodeOpus createOk encodeResult).2
      = (if createOk then
          [OpusHandleEvent.createEncoder, OpusHandleEvent.destroyEncoder]
        else [])
    ∧ (decodeOpus createOk decodeResult).2
      = (if createOk then
          [OpusHandleEvent.createDecoder, OpusHandleEvent.destroyDecoder]
        else []) := by
  cases createOk <;> cases encodeResult <;> cases decodeResult <;>
    simp [encodeOpus, decodeOpus]

/-- Claim C5: for every codec and every run of one send-duty instance,
the i-th RTP packet it emits carries sequence number i modulo 2 to the
16 — the emitted sequence numbers are exactly 0, 1, ..., N-1 mod 2^16
in order, with no gaps or repeats. -/
theorem c5_send_sequence_numbers_consecutive (codec : String)
    (envs : List SendFrameEnv) (i : Nat)
    (h : i < ((sendLoop codec envs 0 0).1).length) :
    (((sendLoop codec envs 0 0).1).get ⟨i, h⟩).sequenceNumber = i % 65536 := by
  have hf := (sendLoop_get_fields codec envs 0 0 i h).1
  simpa using hf

/-- Witness for claim C5 at a concrete one-frame PCMU run. -/
theorem c5_send_sequence_numbers_consecutive_witness :
    (((sendLoop "PCMU"
        [⟨true, List.replicate 160 0, true, Except.ok [], true, true⟩] 0 0).1).get
        ⟨0, by decide⟩).sequenceNumber = 0 % 65536 :=
  c5_send_sequence_numbers_consecutive "PCMU"
    [⟨true, List.replicate 160 0, true, Except.ok [], true, true⟩] 0 (by decide)

/-- Claim C6: for every codec and every pair of consecutive RTP packets
emitted by one send-duty instance, the later timestamp equals the
earlier timestamp plus exactly 160 modulo 2 to the 32, regardless of
which codec produced the payload. -/
theorem c6_send_timestamp_increment_160 (codec : String)
    (envs : List SendFrameEnv) (i : Nat)
    (h : i + 1 < ((sendLoop codec envs 0 0).1).length) :
    (((sendLoop codec envs 0 0).1).get ⟨i + 1, h⟩).timestamp
      = ((((sendLoop codec envs 0 0).1).get ⟨i, Nat.lt_of_succ_lt h⟩).timestamp + 160)
          % 4294967296 := by
  have hA := (sendLoop_get_fields codec envs 0 0 (i + 1) h).2.1
  have hB := (sendLoop_get_fields codec envs 0 0 i (Nat.lt_of_succ_lt h)).2.1
  rw [hA, hB]
  omega

/-- Witness for claim C6 at a concrete two-frame PCMU run. -/
theorem c6_send_timestamp_increment_160_witness :
    (((sendLoop "PCMU"
        [⟨true, List.replicate 160 0, true, Except.ok [], true, true⟩,
         ⟨true, List.replicate 160 0, true, Except.ok [], true, true⟩] 0 0).1).get
        ⟨0 + 1, by decide⟩).timestamp
      = ((((sendLoop "PCMU"
          [⟨true, List.replicate 160 0, true, Except.ok [], true, true⟩,
           ⟨true, List.replicate 160 0, true, Except.ok [], true, true⟩] 0 0).1).get
          ⟨0, Nat.lt_of_succ_lt (by decide)⟩).timestamp + 160) % 4294967296 :=
  c6_send_timestamp_increment_160 "PCMU"
    [⟨true, List.replicate 160 0, true, Except.ok [], true, true⟩,
     ⟨true, List.replicate 160 0, true, Except.ok [], true, true⟩] 0 (by decide)

/-- Claim C7: the receive duty consumes exactly the datagrams read
before the first socket read error (only a read error terminates the
duty), and each consumed datagram contributes its decoded samples
exactly when it parses, has a registered payload type, and decodes;
moreover a datagram with unregistered payload type 5 is dropped while
the loop continues with the remaining datagrams, and a read error
terminates the loop at once. -/
theorem c7_receive_loop_error_policy :
    (∀ envs : List RecvDatagramEnv,
        recvLoop envs = (envs.takeWhile fun e => e.readOk).filterMap handleDatagram)
    ∧ (∀ (rest : List RecvDatagramEnv) (createOk : Bool)
          (decodeResult : Except String (List Int)),
        recvLoop (⟨true, some ⟨2, 5, 0, 0, 1234, [1, 2, 3]⟩, createOk, decodeResult⟩ :: rest)
          = recvLoop rest)
    ∧ (∀ (rest : List RecvDatagramEnv) (parsed : Option RtpPacket)
          (createOk : Bool) (decodeResult : Except String (List Int)),
        recvLoop (⟨false, parsed, createOk, decodeResult⟩ :: rest) = []) := by
  refine ⟨recvLoop_eq, ?_, ?_⟩
  · intro rest createOk decodeResult
    simp [recvLoop]
  · intro rest parsed createOk decodeResult
    simp [recvLoop]

/-- Claim C8: for every buffer of 160 samples in 16-bit range, PCMU
encode followed by PCMU decode succeeds without error, the encoded
byte length equals the sample count (fixed 2-to-1 compression of
16-bit samples into 8-bit codes), and every decoded sample differs
from the original by at most 644 (bounded quantization error). -/
theorem c8_pcmu_roundtrip_bounded (samples : List Int)
    (_hlen : samples.length = 160)
    (hrange : ∀ s ∈ samples, -32768 ≤ s ∧ s ≤ 32767) :
    ∃ enc dec,
      encodeG711 samples = Except.ok enc
      ∧ enc.length = samples.length
      ∧ decodeG711 enc = Except.ok dec
      ∧ dec.length = samples.length
      ∧ ∀ pr ∈ dec.zip samples, (pr.1 - pr.2).natAbs ≤ 644 := by
  refine ⟨samples.map encodePCMU, (samples.map encodePCMU).map decodePCMU,
    rfl, by simp, rfl, by simp, ?_⟩
  have hmaps : (samples.map encodePCMU).map decodePCMU
      = samples.map (fun s => decodePCMU (encodePCMU s)) := by
    rw [List.map_map]
    rfl
  rw [hmaps]
  intro pr hpr
  rcases zip_map_mem (fun s => decodePCMU (encodePCMU s)) samples pr hpr with
    ⟨s, hs, he⟩
  rcases hrange s hs with ⟨hlb, hub⟩
  rw [he]
  exact muLaw_roundtrip s hlb hub

set_option maxRecDepth 4096 in
/-- Witness for claim C8 at the concrete buffer of 160 samples all
equal to 1000. -/
theorem c8_pcmu_roundtrip_bounded_witness :
    ∃ enc dec,
      encodeG711 (List.replicate 160 1000) = Except.ok enc
      ∧ enc.length = (List.replicate 160 (1000 : Int)).length
      ∧ decodeG711 enc = Except.ok dec
      ∧ dec.length = (List.replicate 160 (1000 : Int)).length
      ∧ ∀ pr ∈ dec.zip (List.replicate 160 (1000 : Int)),
          (pr.1 - pr.2).natAbs ≤ 644 :=
  c8_pcmu_roundtrip_bounded (List.replicate 160 1000) (by simp) (by decide)

/-- Claim C9: for the host candidate with address 203.0.113.5 and port
40000 (no relay), the generated SDP answer has connection line exactly
"c=IN IP4 203.0.113.5" and its media line advertises port 40000. -/
theorem c9_sdp_answer_host_scenario :
    sdpLines (generateSDPAnswer "203.0.113.5" 40000 "" 0)
      = ["v=0", "o=- 0 0 IN IP4 203.0.113.5", "s=-", "c=IN IP4 203.0.113.5",
         "t=0 0", "m=audio 40000 RTP/AVP 0 96", "a=rtpmap:96 opus/8000/1", ""]
    ∧ "c=IN IP4 203.0.113.5" ∈ sdpLines (generateSDPAnswer "203.0.113.5" 40000 "" 0)
    ∧ "m=audio 40000 RTP/AVP 0 96"
        ∈ sdpLines (generateSDPAnswer "203.0.113.5" 40000 "" 0) := by
  decide

/-- Claim C10: every RTP packet constructed by the send duty — for any
codec, any environment, and any starting counters — carries header
version 2 and the hardcoded SSRC 1234, so both fields are identical
across all packets of every call leg. -/
theorem c10_rtp_header_version_ssrc_constant (codec : String)
    (envs : List SendFrameEnv) (s t : Nat)
    (i : Fin ((sendLoop codec envs s t).1).length) :
    (((sendLoop codec envs s t).1).get i).version = 2
    ∧ (((sendLoop codec envs s t).1).get i).ssrc = 1234 := by
  have hf := sendLoop_get_fields codec envs s t i.val i.isLt
  exact ⟨hf.2.2.1, hf.2.2.2⟩

end NetPrg
